import Mathlib

/-
  Shallow embedding of the clawtop status board core (TypeScript) in Lean 4.

  Sources embedded:
  - src/types.ts          : Metric, BoardWarning, card types, constructors
  - src/status.ts         : metric predicates, warning dedup, deriveOverallCard
  - src/collectors/channels.ts (repoDrift part) : aggregateBooleanMetric,
                            aggregateCountMetric, aggregateRepoDrift
  - src/collectors/statusSource.ts (versionDrift part) : compareDotVersions
  - src/collectors/openclaw.ts : CommandResult, commandReason, jsonMetricFromCommand
  - src/collectors/security.ts : collectSecurityCard (pure part, after the
                            primary command result has been obtained)

  JavaScript numbers appearing in these functions are only ever compared with
  integers and summed, so they are modelled as Int.  TS `T | null` fields and
  optional fields are modelled as Option.
-/

namespace Clawtop

/-- Warning severity, from types.ts (`"info" | "warn" | "error"`). -/
inductive WarningSeverity where
  | info
  | warn
  | error
  deriving DecidableEq, Repr

/-- Metric from types.ts: `known : boolean`, optional `reason : string`,
`value : T | null`. -/
structure Metric (α : Type) where
  known : Bool
  reason : Option String
  value : Option α
  deriving DecidableEq, Repr

/-- knownMetric from types.ts. -/
def knownMetric {α : Type} (value : α) : Metric α :=
  { known := true, reason := none, value := some value }

/-- unknownMetric from types.ts. -/
def unknownMetric {α : Type} (reason : String) : Metric α :=
  { known := false, reason := some reason, value := none }

/-- BoardWarning from types.ts (optional `context` as Option). -/
structure BoardWarning where
  source : String
  code : String
  reason : String
  severity : WarningSeverity
  context : Option String
  deriving DecidableEq, Repr

/-- buildWarning from types.ts (severity and context passed explicitly). -/
def buildWarning (source code reason : String) (severity : WarningSeverity)
    (context : Option String) : BoardWarning :=
  { source := source, code := code, reason := reason, severity := severity,
    context := context }

/-- CollectorOutput from types.ts. -/
structure CollectorOutput (α : Type) where
  card : α
  warnings : List BoardWarning
  deriving DecidableEq, Repr

/-- StatusLevel from types.ts. -/
inductive StatusLevel where
  | GREEN
  | AMBER
  | RED
  deriving DecidableEq, Repr

/-- OverallCard from types.ts. -/
structure OverallCard where
  level : StatusLevel
  reasons : List String
  deriving DecidableEq, Repr

/-- SecurityCard from types.ts. -/
structure SecurityCard where
  critical : Metric Int
  info : Metric Int
  warning : Metric Int
  deriving DecidableEq, Repr

/-- CronCard from types.ts. -/
structure CronCard where
  enabledCount : Metric Int
  failingOrRecentErrorCount : Metric Int
  deriving DecidableEq, Repr

/-- ChannelsCard from types.ts. -/
structure ChannelsCard where
  configuredCount : Metric Int
  connectedCount : Metric Int
  deriving DecidableEq, Repr

/-- AgentsCard from types.ts. -/
structure AgentsCard where
  configuredCount : Metric Int
  deriving DecidableEq, Repr

/-- SessionsCard from types.ts (`activeWindowMinutes` is a plain number). -/
structure SessionsCard where
  activeCount : Metric Int
  activeWindowMinutes : Int
  deriving DecidableEq, Repr

/-- GatewayCard from types.ts. -/
structure GatewayCard where
  error : Metric String
  reachable : Metric Bool
  deriving DecidableEq, Repr

/-- VersionDriftCard from types.ts. -/
structure VersionDriftCard where
  installedVersion : Metric String
  latestVersion : Metric String
  updateAvailable : Metric Bool
  deriving DecidableEq, Repr

/-- RepoWorkspaceDrift from types.ts.  The optional `diagnostics` array is
modelled as a plain list (the collectors always supply one; the aggregation
functions under proof never read it). -/
structure RepoWorkspaceDrift where
  aheadCount : Metric Int
  behindCount : Metric Int
  clean : Metric Bool
  diagnostics : List BoardWarning
  repositoryRoot : Metric String
  workspacePath : String
  deriving DecidableEq, Repr

/-- RepoDriftCard from types.ts. -/
structure RepoDriftCard where
  aheadCount : Metric Int
  behindCount : Metric Int
  clean : Metric Bool
  dirtyCount : Metric Int
  repositoryCount : Metric Int
  workspaces : List RepoWorkspaceDrift
  deriving DecidableEq, Repr

/-- The argument of deriveOverallCard: `Omit<BoardSnapshot, "overall">`
from types.ts / status.ts. -/
structure SnapshotWithoutOverall where
  agents : AgentsCard
  channels : ChannelsCard
  cron : CronCard
  gateway : GatewayCard
  generatedAt : String
  repoDrift : RepoDriftCard
  security : SecurityCard
  sessions : SessionsCard
  versionDrift : VersionDriftCard
  warnings : List BoardWarning
  deriving DecidableEq, Repr

/-- metricGreaterThan from status.ts:
`metric.known && metric.value !== null && metric.value > threshold`. -/
def metricGreaterThan (metric : Metric Int) (threshold : Int) : Bool :=
  metric.known && (match metric.value with
    | some v => threshold < v
    | none => false)

/-- metricEqualsBoolean from status.ts:
`metric.known && metric.value === expected` (null never equals a boolean). -/
def metricEqualsBoolean (metric : Metric Bool) (expected : Bool) : Bool :=
  metric.known && metric.value == some expected

/-- metricUnknown from status.ts. -/
def metricUnknown {α : Type} (metric : Metric α) : Bool :=
  !metric.known

/-- warningKey from status.ts:
`[source, code, reason, context ?? ""].join("|")`. -/
def warningKey (warning : BoardWarning) : String :=
  String.intercalate "|" [warning.source, warning.code, warning.reason,
    warning.context.getD ""]

/-- uniqueWarnings from status.ts: first occurrence per key wins, insertion
order preserved (the TS reduce into a Map, then Array.from of its values). -/
def uniqueWarnings (warnings : List BoardWarning) : List BoardWarning :=
  warnings.foldl
    (fun accumulator warning =>
      if accumulator.any (fun kept => warningKey kept == warningKey warning) then
        accumulator
      else
        accumulator ++ [warning])
    []

/-- deriveOverallCard from status.ts. -/
def deriveOverallCard (s : SnapshotWithoutOverall) : OverallCard :=
  let redReasons :=
    [ if metricGreaterThan s.security.critical 0 then
        "critical security findings > 0" else "",
      if metricGreaterThan s.cron.failingOrRecentErrorCount 0 then
        "failing cron jobs > 0" else "",
      if metricEqualsBoolean s.gateway.reachable false then
        "gateway unreachable" else "" ].filter (fun reason => reason.length > 0)
  if redReasons.length > 0 then
    { level := StatusLevel.RED, reasons := redReasons }
  else
    let criticalUnknown :=
      [ metricUnknown s.security.critical,
        metricUnknown s.security.warning,
        metricUnknown s.cron.failingOrRecentErrorCount,
        metricUnknown s.channels.configuredCount,
        metricUnknown s.gateway.reachable,
        metricUnknown s.repoDrift.clean,
        metricUnknown s.repoDrift.behindCount,
        metricUnknown s.versionDrift.installedVersion,
        metricUnknown s.versionDrift.latestVersion ].any (fun b => b)
    let amberReasons :=
      [ if metricGreaterThan s.security.warning 0 then
          "warning findings > 0" else "",
        if criticalUnknown then
          "unknown state in critical cards" else "",
        if metricEqualsBoolean s.repoDrift.clean false then
          "repo drift: dirty repository" else "",
        if metricGreaterThan s.repoDrift.behindCount 0 then
          "repo drift: behind upstream" else "" ].filter
        (fun reason => reason.length > 0)
    if amberReasons.length > 0 then
      { level := StatusLevel.AMBER, reasons := amberReasons }
    else
      { level := StatusLevel.GREEN, reasons := ["all health checks passed"] }

/-- aggregateBooleanMetric from collectors/channels.ts (repo-drift part). -/
def aggregateBooleanMetric (metrics : List (Metric Bool))
    (unknownReason : String) : Metric Bool :=
  let knownValues :=
    (metrics.filter (fun metric => metric.known && metric.value.isSome)).map
      (fun metric => metric.value == some true)
  let unknownMetrics := metrics.filter (fun metric => !metric.known)
  if knownValues.contains false then
    knownMetric false
  else if unknownMetrics.length > 0 then
    unknownMetric ((unknownMetrics.head?.bind (fun m => m.reason)).getD unknownReason)
  else
    knownMetric true

/-- aggregateCountMetric from collectors/channels.ts (repo-drift part). -/
def aggregateCountMetric (metrics : List (Metric Int))
    (unknownReason : String) : Metric Int :=
  let unknownMetrics :=
    metrics.filter (fun metric => !metric.known || metric.value.isNone)
  if unknownMetrics.length > 0 then
    unknownMetric ((unknownMetrics.head?.bind (fun m => m.reason)).getD unknownReason)
  else
    knownMetric ((metrics.map (fun metric => metric.value.getD 0)).foldl
      (fun sum value => sum + value) 0)

/-- aggregateRepoDrift from collectors/channels.ts (repo-drift part). -/
def aggregateRepoDrift (workspaceDrifts : List RepoWorkspaceDrift)
    (missingWorkspaceReason : String) : RepoDriftCard :=
  if workspaceDrifts.length == 0 then
    { aheadCount := unknownMetric missingWorkspaceReason,
      behindCount := unknownMetric missingWorkspaceReason,
      clean := unknownMetric missingWorkspaceReason,
      dirtyCount := unknownMetric missingWorkspaceReason,
      repositoryCount := unknownMetric missingWorkspaceReason,
      workspaces := [] }
  else
    let cleanMetric := aggregateBooleanMetric
      (workspaceDrifts.map (fun workspace => workspace.clean))
      "repo cleanliness unknown"
    let dirtyCountMetric :=
      if workspaceDrifts.all (fun workspace => workspace.clean.known) then
        knownMetric ((workspaceDrifts.filter
          (fun workspace => workspace.clean.value == some false)).length : Int)
      else
        unknownMetric "dirty count unavailable from one or more repositories"
    let repositoryCount :=
      (workspaceDrifts.filter (fun workspace => workspace.repositoryRoot.known)).length
    { aheadCount := aggregateCountMetric
        (workspaceDrifts.map (fun workspace => workspace.aheadCount))
        "ahead count unknown",
      behindCount := aggregateCountMetric
        (workspaceDrifts.map (fun workspace => workspace.behindCount))
        "behind count unknown",
      clean := cleanMetric,
      dirtyCount := dirtyCountMetric,
      repositoryCount := knownMetric (repositoryCount : Int),
      workspaces := workspaceDrifts }

/-- JS `String.prototype.trim` on a character list: drop leading and
trailing whitespace. -/
def jsTrimList (chars : List Char) : List Char :=
  ((chars.dropWhile Char.isWhitespace).reverse.dropWhile Char.isWhitespace).reverse

/-- JS `String.prototype.trim`. -/
def jsTrim (value : String) : String :=
  String.mk (jsTrimList value.toList)

/-- JS `String.prototype.split` with a one-character string separator,
on a character list: occurrences of the separator delimit the pieces, the
empty input yields one empty piece. -/
def splitListOnChar (sep : Char) : List Char → List (List Char)
  | [] => [[]]
  | c :: rest =>
    match splitListOnChar sep rest with
    | [] => if c == sep then [[], []] else [[c]]
    | current :: restParts =>
      if c == sep then [] :: current :: restParts
      else (c :: current) :: restParts

/-- JS `value.split(".")`. -/
def splitOnDot (value : String) : List String :=
  (splitListOnChar '.' value.toList).map (fun part => String.mk part)

/-- Value of a digit string (helper for the JS `Number` coercion model). -/
def digitsValue (chars : List Char) : Nat :=
  chars.foldl (fun acc c => acc * 10 + (c.toNat - 48)) 0

/-- Non-empty all-digit check (helper for the JS `Number` coercion model). -/
def isDigits (chars : List Char) : Bool :=
  !chars.isEmpty && chars.all (fun c => c.isDigit)

/-- The `Number(part)` coercion applied to one dotted-version component in
compareDotVersions, composed with the `Number.isFinite ? part : 0` collapse:
a whitespace-trimmed optionally-signed decimal integer evaluates to its
value, the empty / whitespace-only string evaluates to 0, and any other
(non-numeric, NaN) component is treated as 0. -/
def numberOrZero (part : String) : Int :=
  let trimmed := jsTrimList part.toList
  if trimmed.isEmpty then 0
  else
    match trimmed with
    | '-' :: rest => if isDigits rest then -(digitsValue rest : Int) else 0
    | '+' :: rest => if isDigits rest then (digitsValue rest : Int) else 0
    | chars => if isDigits chars then (digitsValue chars : Int) else 0

/-- toParts inside compareDotVersions (collectors/versionDrift.ts):
split on "." and coerce each component. -/
def toParts (value : String) : List Int :=
  (splitOnDot value).map numberOrZero

/-- The tail of the compareDotVersions index loop once the left list is
exhausted: every remaining left component reads as 0 (`?? 0`). -/
def comparePartsRight (rightParts : List Int) : Int :=
  match rightParts with
  | [] => 0
  | rightPart :: rightRest =>
    if (0 : Int) > rightPart then 1
    else if (0 : Int) < rightPart then -1
    else comparePartsRight rightRest

/-- The index loop of compareDotVersions: compare component-wise up to the
longer length, missing trailing components read as 0 (`?? 0`). -/
def compareParts (leftParts rightParts : List Int) : Int :=
  match leftParts, rightParts with
  | [], rest => comparePartsRight rest
  | leftPart :: leftRest, [] =>
    if leftPart > 0 then 1
    else if leftPart < 0 then -1
    else compareParts leftRest []
  | leftPart :: leftRest, rightPart :: rightRest =>
    if leftPart > rightPart then 1
    else if leftPart < rightPart then -1
    else compareParts leftRest rightRest

/-- compareDotVersions from collectors/versionDrift.ts. -/
def compareDotVersions (left right : String) : Int :=
  compareParts (toParts left) (toParts right)

/-- CommandResult from collectors/openclaw.ts (`code : number | null`,
optional `reason`). -/
structure CommandResult where
  args : List String
  code : Option Int
  command : String
  ok : Bool
  reason : Option String
  stderr : String
  stdout : String
  deriving DecidableEq, Repr

/-- commandReason from collectors/openclaw.ts. -/
def commandReason (result : CommandResult) : String :=
  match result.reason with
  | some reason => reason
  | none =>
    let stderrSnippet := jsTrim result.stderr
    let stderrText :=
      if stderrSnippet.length > 0 then " (" ++ stderrSnippet ++ ")" else ""
    result.command ++ " exited with code " ++
      (match result.code with
       | some code => toString code
       | none => "null") ++ stderrText

/-- jsonMetricFromCommand from collectors/openclaw.ts.  The JS-runtime
`JSON.parse` (throwing an Error whose message becomes the reason) is
modelled as a caller-supplied `parseJson` returning `Except` with the error
message, and the zod `schema.safeParse` as a caller-supplied partial
decoding function `safeParse`. -/
def jsonMetricFromCommand {J T : Type} (parseJson : String → Except String J)
    (safeParse : J → Option T) (result : CommandResult) (label : String) :
    Metric T :=
  if !result.ok then
    unknownMetric (label ++ ": " ++ commandReason result)
  else
    let trimmedOutput := jsTrim result.stdout
    if trimmedOutput.length == 0 then
      unknownMetric (label ++ ": empty output")
    else
      match parseJson trimmedOutput with
      | Except.error message => unknownMetric (label ++ ": " ++ message)
      | Except.ok parsedJson =>
        match safeParse parsedJson with
        | none => unknownMetric (label ++ ": schema mismatch")
        | some data => knownMetric data

/-- The `summary` object of the security-audit payloads
(collectors/security.ts and the statusSource schema). -/
structure SecuritySummary where
  critical : Int
  info : Int
  warn : Int
  deriving DecidableEq, Repr

/-- The payload shape of `openclaw security audit --json`
(securityAuditSchema in collectors/security.ts): `summary` is required. -/
structure SecurityAuditPayload where
  summary : SecuritySummary
  deriving DecidableEq, Repr

/-- Agent entries of the statusSource schema (collectors/statusSource.ts). -/
structure StatusAgentEntry where
  id : Option String
  workspaceDir : Option String
  deriving DecidableEq, Repr

/-- `agents` section of the statusSource schema. -/
structure StatusAgents where
  agents : Option (List StatusAgentEntry)
  defaultId : Option String
  deriving DecidableEq, Repr

/-- `gateway` section of the statusSource schema (nullable optionals). -/
structure StatusGateway where
  error : Option (Option String)
  reachable : Option (Option Bool)
  deriving DecidableEq, Repr

/-- `securityAudit` section of the statusSource schema: `summary` optional. -/
structure StatusSecurityAudit where
  summary : Option SecuritySummary
  deriving DecidableEq, Repr

/-- `sessions` section of the statusSource schema. -/
structure StatusSessions where
  count : Option Int
  deriving DecidableEq, Repr

/-- `update.registry` section of the statusSource schema. -/
structure StatusUpdateRegistry where
  latestVersion : Option String
  deriving DecidableEq, Repr

/-- `update` section of the statusSource schema. -/
structure StatusUpdate where
  registry : Option StatusUpdateRegistry
  deriving DecidableEq, Repr

/-- StatusSource from collectors/statusSource.ts (every section optional). -/
structure StatusSource where
  agents : Option StatusAgents
  gateway : Option StatusGateway
  securityAudit : Option StatusSecurityAudit
  sessions : Option StatusSessions
  update : Option StatusUpdate
  deriving DecidableEq, Repr

/-- securityFromSummary from collectors/security.ts. -/
def securityFromSummary (summary : SecuritySummary) : SecurityCard :=
  { critical := knownMetric summary.critical,
    info := knownMetric summary.info,
    warning := knownMetric summary.warn }

/-- unknownSecurityCard from collectors/security.ts. -/
def unknownSecurityCard (reason : String) : SecurityCard :=
  { critical := unknownMetric reason,
    info := unknownMetric reason,
    warning := unknownMetric reason }

/-- collectSecurityCard from collectors/security.ts, after the primary
`openclaw security audit --json` invocation has produced its metric (the
`await runOpenClawJson(...)` result is passed in as `securityAuditMetric`;
everything after that await is pure and embedded verbatim):
if the primary metric is known with a value, its summary is used with no
warnings; otherwise the status-source payload's embedded
`securityAudit.summary` is used with a warn advisory citing the primary
failure; otherwise an all-unknown card whose reason falls back through
`securityAuditMetric.reason ?? statusSourceMetric.reason ?? default`,
with one warn warning carrying that reason. -/
def collectSecurityCard (securityAuditMetric : Metric SecurityAuditPayload)
    (statusSourceMetric : Metric StatusSource) :
    CollectorOutput SecurityCard :=
  match securityAuditMetric.known, securityAuditMetric.value with
  | true, some payload =>
    { card := securityFromSummary payload.summary, warnings := [] }
  | _, _ =>
    let fallbackSummary :=
      (statusSourceMetric.value.bind (fun s => s.securityAudit)).bind
        (fun audit => audit.summary)
    match fallbackSummary with
    | some summary =>
      { card := securityFromSummary summary,
        warnings := [buildWarning "security" "security_audit_fallback_status"
          (securityAuditMetric.reason.getD "security audit command unavailable")
          WarningSeverity.warn none] }
    | none =>
      let reason := securityAuditMetric.reason.getD
        (statusSourceMetric.reason.getD "security summary unavailable")
      { card := unknownSecurityCard reason,
        warnings := [buildWarning "security" "security_summary_unknown" reason
          WarningSeverity.warn none] }

/-- The healthy baseline snapshot used by the deriveOverallCard test suite. -/
def healthySnapshot : SnapshotWithoutOverall :=
  { agents := { configuredCount := knownMetric 2 },
    channels :=
      { configuredCount := knownMetric 2, connectedCount := knownMetric 2 },
    cron :=
      { enabledCount := knownMetric 5,
        failingOrRecentErrorCount := knownMetric 0 },
    gateway :=
      { error := unknownMetric "no error", reachable := knownMetric true },
    generatedAt := "",
    repoDrift :=
      { aheadCount := knownMetric 0, behindCount := knownMetric 0,
        clean := knownMetric true, dirtyCount := knownMetric 0,
        repositoryCount := knownMetric 1, workspaces := [] },
    security :=
      { critical := knownMetric 0, info := knownMetric 1,
        warning := knownMetric 0 },
    sessions := { activeCount := knownMetric 1, activeWindowMinutes := 60 },
    versionDrift :=
      { installedVersion := knownMetric "2026.2.9",
        latestVersion := knownMetric "2026.2.9",
        updateAvailable := knownMetric false },
    warnings := [] }

/-- The baseline with one watch-list metric made unknown. -/
def unknownLatestSnapshot : SnapshotWithoutOverall :=
  { healthySnapshot with
    versionDrift :=
      { healthySnapshot.versionDrift with
        latestVersion := unknownMetric "latest unavailable" } }

/-- The baseline with critical security findings. -/
def criticalFindingsSnapshot : SnapshotWithoutOverall :=
  { healthySnapshot with
    security := { healthySnapshot.security with critical := knownMetric 1 } }

/-- A workspace record whose repository is known-dirty. -/
def dirtyDrift : RepoWorkspaceDrift :=
  { aheadCount := knownMetric 1, behindCount := knownMetric 0,
    clean := knownMetric false, diagnostics := [],
    repositoryRoot := knownMetric "/repo/dirty", workspacePath := "/ws/dirty" }

/-- A workspace record whose cleanliness could not be determined. -/
def unknownCleanDrift : RepoWorkspaceDrift :=
  { aheadCount := knownMetric 0, behindCount := knownMetric 0,
    clean := unknownMetric "git status failed", diagnostics := [],
    repositoryRoot := knownMetric "/repo/unknown",
    workspacePath := "/ws/unknown" }

/-- Test parser standing in for JSON.parse in witnesses: accepts the two
payload texts used by the bridge test suite, rejects everything else. -/
def sampleJsonParse : String → Except String Int := fun s =>
  if s = "7" then Except.ok 7
  else if s = "8" then Except.ok 8
  else Except.error "Unexpected token"

/-- Test schema standing in for zod safeParse in witnesses: accepts only the
payload 7. -/
def sampleSchema : Int → Option Int := fun j =>
  if j = 7 then some j else none

/-- The audit summary embedded in the witness status payload. -/
def sampleSummary : SecuritySummary := { critical := 0, info := 2, warn := 1 }

/-- A status-source payload carrying an embedded audit summary. -/
def sampleStatusWithAudit : StatusSource :=
  { agents := none, gateway := none,
    securityAudit := some ({ summary := some sampleSummary }),
    sessions := none, update := none }

lemma metricGreaterThan_iff (m : Metric Int) (t : Int) :
    metricGreaterThan m t = true ↔
      m.known = true ∧ ∃ n, m.value = some n ∧ t < n := by
  unfold metricGreaterThan
  cases hv : m.value <;> simp [hv]

lemma metricEqualsBoolean_iff (m : Metric Bool) (b : Bool) :
    metricEqualsBoolean m b = true ↔ m.known = true ∧ m.value = some b := by
  unfold metricEqualsBoolean
  simp

lemma filter_red_entries (a b c : Bool) :
    ([ if a then "critical security findings > 0" else "",
       if b then "failing cron jobs > 0" else "",
       if c then "gateway unreachable" else "" ].filter
      (fun reason => reason.length > 0)) =
    ((if a then ["critical security findings > 0"] else []) ++
      (if b then ["failing cron jobs > 0"] else []) ++
      (if c then ["gateway unreachable"] else [])) := by
  cases a <;> cases b <;> cases c <;> rfl

lemma append_ifs_len_pos (a b c : Bool) (sa sb sc : String) :
    0 < ((if a then [sa] else []) ++ (if b then [sb] else []) ++
      (if c then [sc] else [])).length ↔ (a = true ∨ b = true ∨ c = true) := by
  cases a <;> cases b <;> cases c <;> simp

lemma overall_ite_level_not_red (c : Prop) [inst : Decidable c]
    (l1 l2 : List String) :
    (if c then ({ level := StatusLevel.AMBER, reasons := l1 } : OverallCard)
      else { level := StatusLevel.GREEN, reasons := l2 }).level ≠
      StatusLevel.RED := by
  split <;> simp

lemma contains_false_iff_dirty (metrics : List (Metric Bool)) :
    (((metrics.filter (fun metric => metric.known && metric.value.isSome)).map
      (fun metric => metric.value == some true)).contains false = true) ↔
    ∃ m ∈ metrics, m.known = true ∧ m.value = some false := by
  rw [List.elem_iff]
  simp only [List.mem_map, List.mem_filter, Bool.and_eq_true,
    Option.isSome_iff_exists]
  constructor
  · rintro ⟨m, ⟨hm, hk, v, hv⟩, hbeq⟩
    refine ⟨m, hm, hk, ?_⟩
    rw [hv] at hbeq ⊢
    cases v
    · rfl
    · simp at hbeq
  · rintro ⟨m, hm, hk, hv⟩
    exact ⟨m, ⟨hm, hk, false, hv⟩, by rw [hv]; rfl⟩

lemma unknown_filter_pos_iff (metrics : List (Metric Bool)) :
    (0 < (metrics.filter (fun metric => !metric.known)).length) ↔
    ∃ m ∈ metrics, m.known = false := by
  rw [List.length_pos]
  constructor
  · intro h
    obtain ⟨m, hm⟩ := List.exists_mem_of_ne_nil _ h
    have := List.mem_filter.mp hm
    exact ⟨m, this.1, by simpa using this.2⟩
  · rintro ⟨m, hm, hk⟩
    intro hnil
    have : m ∈ metrics.filter (fun metric => !metric.known) :=
      List.mem_filter.mpr ⟨hm, by simp [hk]⟩
    rw [hnil] at this
    exact absurd this (List.not_mem_nil m)

lemma aggregateBooleanMetric_dirty (metrics : List (Metric Bool)) (u : String)
    (h : ∃ m ∈ metrics, m.known = true ∧ m.value = some false) :
    aggregateBooleanMetric metrics u = knownMetric false := by
  simp only [aggregateBooleanMetric]
  rw [if_pos ((contains_false_iff_dirty metrics).mpr h)]

lemma aggregateBooleanMetric_unknown (metrics : List (Metric Bool)) (u : String)
    (hnd : ∀ m ∈ metrics, ¬(m.known = true ∧ m.value = some false))
    (hu : ∃ m ∈ metrics, m.known = false) :
    (aggregateBooleanMetric metrics u).known = false := by
  simp only [aggregateBooleanMetric]
  rw [if_neg (fun hc => by
    obtain ⟨m, hm, hk, hv⟩ := (contains_false_iff_dirty metrics).mp hc
    exact hnd m hm ⟨hk, hv⟩)]
  rw [if_pos ((unknown_filter_pos_iff metrics).mpr hu)]
  rfl

lemma aggregateBooleanMetric_all_clean (metrics : List (Metric Bool)) (u : String)
    (hnd : ∀ m ∈ metrics, ¬(m.known = true ∧ m.value = some false))
    (hk : ∀ m ∈ metrics, m.known = true) :
    aggregateBooleanMetric metrics u = knownMetric true := by
  simp only [aggregateBooleanMetric]
  rw [if_neg (fun hc => by
    obtain ⟨m, hm, hkm, hv⟩ := (contains_false_iff_dirty metrics).mp hc
    exact hnd m hm ⟨hkm, hv⟩)]
  rw [if_neg (fun hp => by
    obtain ⟨m, hm, hkf⟩ := (unknown_filter_pos_iff metrics).mp hp
    rw [hk m hm] at hkf
    exact absurd hkf (by simp))]

lemma length_beq_zero_false {α : Type} (ws : List α) (hne : ws ≠ []) :
    ¬((ws.length == 0) = true) := by
  cases ws with
  | nil => exact absurd rfl hne
  | cons w rest => simp

lemma aggregateBooleanMetric_pair_swap (a b : Metric Bool) (u : String) :
    (aggregateBooleanMetric [a, b] u).known =
      (aggregateBooleanMetric [b, a] u).known ∧
    (aggregateBooleanMetric [a, b] u).value =
      (aggregateBooleanMetric [b, a] u).value := by
  obtain ⟨ka, ra, va⟩ := a
  obtain ⟨kb, rb, vb⟩ := b
  cases ka <;> cases kb <;>
    rcases va with _ | (_ | _) <;> rcases vb with _ | (_ | _) <;>
      simp [aggregateBooleanMetric, knownMetric, unknownMetric]

lemma aggregateCountMetric_pair_swap (a b : Metric Int) (u : String) :
    (aggregateCountMetric [a, b] u).known =
      (aggregateCountMetric [b, a] u).known ∧
    (aggregateCountMetric [a, b] u).value =
      (aggregateCountMetric [b, a] u).value := by
  obtain ⟨ka, ra, va⟩ := a
  obtain ⟨kb, rb, vb⟩ := b
  cases ka <;> cases kb <;> rcases va with _ | x <;> rcases vb with _ | y <;>
    simp [aggregateCountMetric, knownMetric, unknownMetric, Int.add_comm]

lemma all_pair_swap {α : Type} (p : α → Bool) (x y : α) :
    [x, y].all p = [y, x].all p := by
  cases hx : p x <;> cases hy : p y <;> simp [List.all_cons, hx, hy]

lemma filter_pair_length_swap {α : Type} (p : α → Bool) (x y : α) :
    (List.filter p [x, y]).length = (List.filter p [y, x]).length := by
  cases hx : p x <;> cases hy : p y <;>
    simp [List.filter_cons, List.filter_nil, hx, hy]

lemma string_append_cancel_left (x a b : String) (h : x ++ a = x ++ b) :
    a = b := by
  have hd := congrArg String.data h
  simp only [String.data_append] at hd
  exact String.ext (List.append_cancel_left hd)

lemma warningKey_expand (w : BoardWarning) :
    warningKey w = w.source ++ "|" ++ w.code ++ "|" ++ w.reason ++ "|" ++
      w.context.getD "" := by
  rfl

lemma splitListOnChar_ne_nil (sep : Char) (xs : List Char) :
    splitListOnChar sep xs ≠ [] := by
  cases xs with
  | nil => simp [splitListOnChar]
  | cons c rest =>
    simp only [splitListOnChar]
    cases h : splitListOnChar sep rest with
    | nil => by_cases hc : (c == sep) = true <;> simp [hc]
    | cons t ts => by_cases hc : (c == sep) = true <;> simp [hc]

lemma splitListOnChar_dot_zero (xs : List Char) :
    splitListOnChar '.' (xs ++ ['.', '0']) =
      splitListOnChar '.' xs ++ [['0']] := by
  induction xs with
  | nil => rfl
  | cons c rest ih =>
    simp only [List.cons_append, splitListOnChar, List.append_eq]
    rw [ih]
    cases h : splitListOnChar '.' rest with
    | nil => exact absurd h (splitListOnChar_ne_nil '.' rest)
    | cons t ts =>
      by_cases hc : (c == '.') = true <;> simp [hc]

lemma toParts_append_dot_zero (l : String) :
    toParts (l ++ ".0") = toParts l ++ [0] := by
  unfold toParts splitOnDot
  have hlist : (l ++ ".0").toList = l.toList ++ ['.', '0'] := by
    have := congrArg String.data (rfl : l ++ ".0" = l ++ ".0")
    simp [String.toList, String.data_append]
  rw [hlist, splitListOnChar_dot_zero]
  simp [List.map_append]
  rfl

lemma comparePartsRight_neg (rs : List Int) :
    comparePartsRight rs = -(compareParts rs []) := by
  induction rs with
  | nil => rfl
  | cons b bs ih =>
    simp only [comparePartsRight, compareParts]
    split_ifs <;> first | exact ih | omega

lemma compareParts_antisym (l : List Int) :
    ∀ r : List Int, compareParts l r = -(compareParts r l) := by
  induction l with
  | nil =>
    intro r
    exact comparePartsRight_neg r
  | cons a as ih =>
    intro r
    cases r with
    | nil =>
      show compareParts (a :: as) [] = -(comparePartsRight (a :: as))
      rw [comparePartsRight_neg]
      omega
    | cons b bs =>
      simp only [compareParts]
      split_ifs <;> first | exact ih bs | omega

lemma comparePartsRight_mem (rs : List Int) :
    comparePartsRight rs = -1 ∨ comparePartsRight rs = 0 ∨
      comparePartsRight rs = 1 := by
  induction rs with
  | nil => simp [comparePartsRight]
  | cons b bs ih =>
    simp only [comparePartsRight]
    split_ifs <;> simp [ih]

lemma compareParts_mem (l : List Int) :
    ∀ r : List Int, compareParts l r = -1 ∨ compareParts l r = 0 ∨
      compareParts l r = 1 := by
  induction l with
  | nil =>
    intro r
    exact comparePartsRight_mem r
  | cons a as ih =>
    intro r
    cases r with
    | nil =>
      simp only [compareParts]
      split_ifs <;> simp [ih []]
    | cons b bs =>
      simp only [compareParts]
      split_ifs <;> simp [ih bs]

lemma compareParts_append_zero_left (l : List Int) :
    ∀ r : List Int, compareParts (l ++ [0]) r = compareParts l r := by
  induction l with
  | nil =>
    intro r
    cases r with
    | nil => rfl
    | cons b bs =>
      show compareParts [0] (b :: bs) = comparePartsRight (b :: bs)
      simp only [compareParts, comparePartsRight]
  | cons a as ih =>
    intro r
    cases r with
    | nil =>
      simp only [List.cons_append, compareParts, List.append_eq, ih]
    | cons b bs =>
      simp only [List.cons_append, compareParts, List.append_eq, ih]

lemma compareParts_self (l : List Int) : compareParts l l = 0 := by
  induction l with
  | nil => rfl
  | cons a as ih =>
    simp only [compareParts]
    split_ifs <;> first | exact ih | omega

lemma stringMk_eq_empty_iff (l : List Char) : String.mk l = "" ↔ l = [] := by
  constructor
  · intro h
    have := congrArg String.data h
    simpa using this
  · intro h
    rw [h]

lemma jsTrim_length_eq_zero_iff (s : String) :
    ((jsTrim s).length == 0) = true ↔ jsTrim s = "" := by
  rw [beq_iff_eq]
  show (jsTrimList s.toList).length = 0 ↔ _
  rw [List.length_eq_zero]
  exact (stringMk_eq_empty_iff (jsTrimList s.toList)).symm

/-- Claim C1: for every snapshot (without overall), deriveOverallCard
returns level RED if and only if critical security findings are known and
positive, the failing/recent-error cron count is known and positive, or
gateway reachability is known and false; when RED fires the reasons list is
exactly the concatenation of the matching RED reasons (all of them, in
order) and contains no AMBER-class reason; an unknown metric alone never
produces RED. -/
theorem deriveOverallCard_red_characterized (s : SnapshotWithoutOverall) :
    ((deriveOverallCard s).level = StatusLevel.RED ↔
      ((s.security.critical.known = true ∧
          ∃ n, s.security.critical.value = some n ∧ 0 < n) ∨
        (s.cron.failingOrRecentErrorCount.known = true ∧
          ∃ n, s.cron.failingOrRecentErrorCount.value = some n ∧ 0 < n) ∨
        (s.gateway.reachable.known = true ∧
          s.gateway.reachable.value = some false))) ∧
    ((deriveOverallCard s).level = StatusLevel.RED →
      (deriveOverallCard s).reasons =
        ((if metricGreaterThan s.security.critical 0 then
            ["critical security findings > 0"] else []) ++
          (if metricGreaterThan s.cron.failingOrRecentErrorCount 0 then
            ["failing cron jobs > 0"] else []) ++
          (if metricEqualsBoolean s.gateway.reachable false then
            ["gateway unreachable"] else [])) ∧
      "warning findings > 0" ∉ (deriveOverallCard s).reasons ∧
      "unknown state in critical cards" ∉ (deriveOverallCard s).reasons ∧
      "repo drift: dirty repository" ∉ (deriveOverallCard s).reasons ∧
      "repo drift: behind upstream" ∉ (deriveOverallCard s).reasons) := by
  have h1 := metricGreaterThan_iff s.security.critical 0
  have h2 := metricGreaterThan_iff s.cron.failingOrRecentErrorCount 0
  have h3 := metricEqualsBoolean_iff s.gateway.reachable false
  simp only [deriveOverallCard, filter_red_entries]
  by_cases hred : metricGreaterThan s.security.critical 0 = true ∨
      metricGreaterThan s.cron.failingOrRecentErrorCount 0 = true ∨
      metricEqualsBoolean s.gateway.reachable false = true
  · rw [if_pos ((append_ifs_len_pos _ _ _ _ _ _).mpr hred)]
    constructor
    · constructor
      · intro _
        rcases hred with h | h | h
        · exact Or.inl (h1.mp h)
        · exact Or.inr (Or.inl (h2.mp h))
        · exact Or.inr (Or.inr (h3.mp h))
      · intro _
        rfl
    · intro _
      refine ⟨rfl, ?_, ?_, ?_, ?_⟩ <;>
        cases metricGreaterThan s.security.critical 0 <;>
        cases metricGreaterThan s.cron.failingOrRecentErrorCount 0 <;>
        cases metricEqualsBoolean s.gateway.reachable false <;>
        decide
  · push_neg at hred
    obtain ⟨ha, hb, hc⟩ := hred
    simp only [Bool.not_eq_true] at ha hb hc
    rw [ha] at h1
    rw [hb] at h2
    rw [hc] at h3
    simp only [Bool.false_eq_true, false_iff] at h1 h2 h3
    have hnotlen : ¬((((if metricGreaterThan s.security.critical 0 then
        ["critical security findings > 0"] else []) ++
        (if metricGreaterThan s.cron.failingOrRecentErrorCount 0 then
          ["failing cron jobs > 0"] else [])) ++
        (if metricEqualsBoolean s.gateway.reachable false then
          ["gateway unreachable"] else [])).length > 0) := by
      rw [ha, hb, hc]
      simp
    rw [if_neg hnotlen]
    constructor
    · apply iff_of_false (overall_ite_level_not_red _ _ _)
      rintro (h | h | h)
      · exact h1 ⟨h.1, h.2⟩
      · exact h2 ⟨h.1, h.2⟩
      · exact h3 ⟨h.1, h.2⟩
    · intro hcontra
      exact absurd hcontra (overall_ite_level_not_red _ _ _)

/-- Witness for C1 at the baseline snapshot with critical findings = 1. -/
theorem deriveOverallCard_red_characterized_witness :
    (deriveOverallCard criticalFindingsSnapshot).level = StatusLevel.RED ∧
    "warning findings > 0" ∉ (deriveOverallCard criticalFindingsSnapshot).reasons ∧
    "unknown state in critical cards" ∉
      (deriveOverallCard criticalFindingsSnapshot).reasons := by
  have h := deriveOverallCard_red_characterized criticalFindingsSnapshot
  have hlvl : (deriveOverallCard criticalFindingsSnapshot).level =
      StatusLevel.RED :=
    h.1.mpr (Or.inl ⟨rfl, 1, rfl, one_pos⟩)
  exact ⟨hlvl, (h.2 hlvl).2.1, (h.2 hlvl).2.2.1⟩

/-- Claim C2: for every snapshot in which no RED condition fires, if at
least one of the nine watch-list metrics is unknown, deriveOverallCard
returns AMBER and its reasons list contains the string
"unknown state in critical cards" exactly once, regardless of how many of
the nine are unknown. -/
theorem deriveOverallCard_unknown_watch (s : SnapshotWithoutOverall)
    (ha : metricGreaterThan s.security.critical 0 = false)
    (hb : metricGreaterThan s.cron.failingOrRecentErrorCount 0 = false)
    (hc : metricEqualsBoolean s.gateway.reachable false = false)
    (hunknown : s.security.critical.known = false ∨
      s.security.warning.known = false ∨
      s.cron.failingOrRecentErrorCount.known = false ∨
      s.channels.configuredCount.known = false ∨
      s.gateway.reachable.known = false ∨
      s.repoDrift.clean.known = false ∨
      s.repoDrift.behindCount.known = false ∨
      s.versionDrift.installedVersion.known = false ∨
      s.versionDrift.latestVersion.known = false) :
    (deriveOverallCard s).level = StatusLevel.AMBER ∧
    ((deriveOverallCard s).reasons.count "unknown state in critical cards") = 1 := by
  have hcu : ([ metricUnknown s.security.critical,
      metricUnknown s.security.warning,
      metricUnknown s.cron.failingOrRecentErrorCount,
      metricUnknown s.channels.configuredCount,
      metricUnknown s.gateway.reachable,
      metricUnknown s.repoDrift.clean,
      metricUnknown s.repoDrift.behindCount,
      metricUnknown s.versionDrift.installedVersion,
      metricUnknown s.versionDrift.latestVersion ].any (fun b => b)) = true := by
    simp only [List.any_cons, List.any_nil, metricUnknown, Bool.or_eq_true,
      Bool.not_eq_true', Bool.false_eq_true, or_false]
    tauto
  cases hw : metricGreaterThan s.security.warning 0 <;>
    cases hd : metricEqualsBoolean s.repoDrift.clean false <;>
      cases hbd : metricGreaterThan s.repoDrift.behindCount 0 <;>
        (simp only [deriveOverallCard, ha, hb, hc, hcu, hw, hd, hbd]; decide)

/-- Witness for C2 at the baseline snapshot with latestVersion unknown. -/
theorem deriveOverallCard_unknown_watch_witness :
    (deriveOverallCard unknownLatestSnapshot).level = StatusLevel.AMBER ∧
    ((deriveOverallCard unknownLatestSnapshot).reasons.count
      "unknown state in critical cards") = 1 :=
  deriveOverallCard_unknown_watch unknownLatestSnapshot (by decide) (by decide)
    (by decide) (by decide)

/-- Claim C3: for every snapshot in which every consulted watch-list
metric is known and healthy (critical = 0, warning = 0, failing cron = 0,
gateway reachable, repo clean, behind-count = 0, and all nine watch-list
metrics known), deriveOverallCard returns GREEN with reasons exactly
["all health checks passed"]. -/
theorem deriveOverallCard_green (s : SnapshotWithoutOverall)
    (h1k : s.security.critical.known = true)
    (h1v : s.security.critical.value = some 0)
    (h2k : s.security.warning.known = true)
    (h2v : s.security.warning.value = some 0)
    (h3k : s.cron.failingOrRecentErrorCount.known = true)
    (h3v : s.cron.failingOrRecentErrorCount.value = some 0)
    (h4k : s.channels.configuredCount.known = true)
    (h5k : s.gateway.reachable.known = true)
    (h5v : s.gateway.reachable.value = some true)
    (h6k : s.repoDrift.clean.known = true)
    (h6v : s.repoDrift.clean.value = some true)
    (h7k : s.repoDrift.behindCount.known = true)
    (h7v : s.repoDrift.behindCount.value = some 0)
    (h8k : s.versionDrift.installedVersion.known = true)
    (h9k : s.versionDrift.latestVersion.known = true) :
    deriveOverallCard s =
      { level := StatusLevel.GREEN, reasons := ["all health checks passed"] } := by
  have ha : metricGreaterThan s.security.critical 0 = false := by
    simp [metricGreaterThan, h1v]
  have hb : metricGreaterThan s.cron.failingOrRecentErrorCount 0 = false := by
    simp [metricGreaterThan, h3v]
  have hc : metricEqualsBoolean s.gateway.reachable false = false := by
    simp [metricEqualsBoolean, h5v]
  have hw : metricGreaterThan s.security.warning 0 = false := by
    simp [metricGreaterThan, h2v]
  have hd : metricEqualsBoolean s.repoDrift.clean false = false := by
    simp [metricEqualsBoolean, h6v]
  have hbd : metricGreaterThan s.repoDrift.behindCount 0 = false := by
    simp [metricGreaterThan, h7v]
  have hcu : ([ metricUnknown s.security.critical,
      metricUnknown s.security.warning,
      metricUnknown s.cron.failingOrRecentErrorCount,
      metricUnknown s.channels.configuredCount,
      metricUnknown s.gateway.reachable,
      metricUnknown s.repoDrift.clean,
      metricUnknown s.repoDrift.behindCount,
      metricUnknown s.versionDrift.installedVersion,
      metricUnknown s.versionDrift.latestVersion ].any (fun b => b)) = false := by
    simp [metricUnknown, h1k, h2k, h3k, h4k, h5k, h6k, h7k, h8k, h9k]
  simp only [deriveOverallCard, ha, hb, hc, hw, hd, hbd, hcu]
  decide

/-- Witness for C3 at the healthy baseline snapshot. -/
theorem deriveOverallCard_green_witness :
    deriveOverallCard healthySnapshot =
      { level := StatusLevel.GREEN, reasons := ["all health checks passed"] } :=
  deriveOverallCard_green healthySnapshot rfl rfl rfl rfl rfl rfl rfl rfl rfl
    rfl rfl rfl rfl rfl rfl

/-- Claim C4: for every non-empty workspace list, the aggregated clean
metric is known-false if any workspace is known-dirty, unknown if no
workspace is known-dirty but at least one cleanliness is unknown, and
known-true otherwise; dirtyCount is known (equal to the number of
workspaces whose clean value is false) if and only if every workspace
cleanliness is known. -/
theorem aggregateRepoDrift_clean_dirty (ws : List RepoWorkspaceDrift)
    (r : String) (hne : ws ≠ []) :
    ((∃ w ∈ ws, w.clean.known = true ∧ w.clean.value = some false) →
      (aggregateRepoDrift ws r).clean = knownMetric false) ∧
    ((∀ w ∈ ws, ¬(w.clean.known = true ∧ w.clean.value = some false)) →
      (∃ w ∈ ws, w.clean.known = false) →
      (aggregateRepoDrift ws r).clean.known = false) ∧
    ((∀ w ∈ ws, ¬(w.clean.known = true ∧ w.clean.value = some false)) →
      (∀ w ∈ ws, w.clean.known = true) →
      (aggregateRepoDrift ws r).clean = knownMetric true) ∧
    ((aggregateRepoDrift ws r).dirtyCount.known = true ↔
      ∀ w ∈ ws, w.clean.known = true) ∧
    ((∀ w ∈ ws, w.clean.known = true) →
      (aggregateRepoDrift ws r).dirtyCount =
        knownMetric (((ws.filter
          (fun w => w.clean.value == some false)).length : Int))) := by
  simp only [aggregateRepoDrift]
  rw [if_neg (length_beq_zero_false ws hne)]
  have hmap : ∀ m : Metric Bool,
      m ∈ ws.map (fun w => w.clean) ↔ ∃ w ∈ ws, w.clean = m := by
    intro m
    simp [List.mem_map]
  refine ⟨?_, ?_, ?_, ?_, ?_⟩
  · intro h
    apply aggregateBooleanMetric_dirty
    obtain ⟨w, hw, hk, hv⟩ := h
    exact ⟨w.clean, (hmap w.clean).mpr ⟨w, hw, rfl⟩, hk, hv⟩
  · intro hnd hu
    apply aggregateBooleanMetric_unknown
    · intro m hm
      obtain ⟨w, hw, hwm⟩ := (hmap m).mp hm
      rw [← hwm]
      exact hnd w hw
    · obtain ⟨w, hw, hk⟩ := hu
      exact ⟨w.clean, (hmap w.clean).mpr ⟨w, hw, rfl⟩, hk⟩
  · intro hnd hk
    apply aggregateBooleanMetric_all_clean
    · intro m hm
      obtain ⟨w, hw, hwm⟩ := (hmap m).mp hm
      rw [← hwm]
      exact hnd w hw
    · intro m hm
      obtain ⟨w, hw, hwm⟩ := (hmap m).mp hm
      rw [← hwm]
      exact hk w hw
  · cases hall : ws.all (fun w => w.clean.known) with
    | true =>
      simp only [if_pos rfl]
      constructor
      · intro _
        exact fun w hw => List.all_eq_true.mp hall w hw
      · intro _
        rfl
    | false =>
      rw [if_neg (by simp)]
      constructor
      · intro hcontra
        exact absurd hcontra (by simp [unknownMetric])
      · intro hk
        exfalso
        have : ws.all (fun w => w.clean.known) = true :=
          List.all_eq_true.mpr (fun w hw => hk w hw)
        rw [hall] at this
        exact absurd this (by simp)
  · intro hk
    rw [if_pos (List.all_eq_true.mpr (fun w hw => hk w hw))]

/-- Witness for C4: one known-dirty plus one unknown-cleanliness
workspace yields clean known-false but dirtyCount unknown. -/
theorem aggregateRepoDrift_clean_dirty_witness :
    (aggregateRepoDrift [dirtyDrift, unknownCleanDrift] "no workspaces").clean =
      knownMetric false ∧
    (aggregateRepoDrift [dirtyDrift, unknownCleanDrift]
      "no workspaces").dirtyCount.known = false := by
  have h := aggregateRepoDrift_clean_dirty [dirtyDrift, unknownCleanDrift]
    "no workspaces" (List.cons_ne_nil _ _)
  refine ⟨h.1 ⟨dirtyDrift, List.mem_cons_self _ _, rfl, rfl⟩, ?_⟩
  cases hk : (aggregateRepoDrift [dirtyDrift, unknownCleanDrift]
      "no workspaces").dirtyCount.known with
  | false => rfl
  | true =>
    have := h.2.2.2.1.mp hk unknownCleanDrift (by simp)
    exact absurd this (by decide)

/-- Claim C5: aggregating the empty workspace list yields all five
metrics unknown with the caller-supplied reason and an empty workspaces
list; for every non-empty list, repositoryCount is known and counts the
workspaces whose repositoryRoot metric is known. -/
theorem aggregateRepoDrift_empty_and_repoCount :
    (∀ r : String, aggregateRepoDrift [] r =
      { aheadCount := unknownMetric r, behindCount := unknownMetric r,
        clean := unknownMetric r, dirtyCount := unknownMetric r,
        repositoryCount := unknownMetric r, workspaces := [] }) ∧
    (∀ (ws : List RepoWorkspaceDrift) (r : String), ws ≠ [] →
      (aggregateRepoDrift ws r).repositoryCount =
        knownMetric (((ws.filter
          (fun w => w.repositoryRoot.known)).length : Int))) := by
  constructor
  · intro r
    rfl
  · intro ws r hne
    simp only [aggregateRepoDrift]
    rw [if_neg (length_beq_zero_false ws hne)]

/-- Witness for C5 at the empty list and a concrete two-workspace
list. -/
theorem aggregateRepoDrift_empty_and_repoCount_witness :
    aggregateRepoDrift [] "why" =
      { aheadCount := unknownMetric "why", behindCount := unknownMetric "why",
        clean := unknownMetric "why", dirtyCount := unknownMetric "why",
        repositoryCount := unknownMetric "why", workspaces := [] } ∧
    (aggregateRepoDrift [dirtyDrift, unknownCleanDrift] "why").repositoryCount =
      knownMetric 2 :=
  ⟨aggregateRepoDrift_empty_and_repoCount.1 "why",
    by
      rw [aggregateRepoDrift_empty_and_repoCount.2
        [dirtyDrift, unknownCleanDrift] "why" (List.cons_ne_nil _ _)]
      decide⟩

/-- Counterexample for C6: swapping two workspaces whose cleanliness is
unknown for different reasons changes the surfaced reason of the aggregated
clean metric, so the aggregated metrics are not identical as stated. -/
theorem aggregateRepoDrift_pair_swap_counterexample :
    ¬((aggregateRepoDrift [unknownCleanDrift,
        { unknownCleanDrift with clean := unknownMetric "other reason" }]
        "none").clean =
      (aggregateRepoDrift [{ unknownCleanDrift with
        clean := unknownMetric "other reason" }, unknownCleanDrift]
        "none").clean) := by
  decide

/-- Claim C6 (amended): aggregating [A, B] and [B, A] yields clean,
aheadCount and behindCount metrics that agree on known and value (their
surfaced unknown reasons are first-unknown tie-breaks and may differ), and
identical dirtyCount and repositoryCount metrics. -/
theorem aggregateRepoDrift_pair_swap (A B : RepoWorkspaceDrift) (r : String) :
    ((aggregateRepoDrift [A, B] r).clean.known =
        (aggregateRepoDrift [B, A] r).clean.known ∧
      (aggregateRepoDrift [A, B] r).clean.value =
        (aggregateRepoDrift [B, A] r).clean.value) ∧
    ((aggregateRepoDrift [A, B] r).aheadCount.known =
        (aggregateRepoDrift [B, A] r).aheadCount.known ∧
      (aggregateRepoDrift [A, B] r).aheadCount.value =
        (aggregateRepoDrift [B, A] r).aheadCount.value) ∧
    ((aggregateRepoDrift [A, B] r).behindCount.known =
        (aggregateRepoDrift [B, A] r).behindCount.known ∧
      (aggregateRepoDrift [A, B] r).behindCount.value =
        (aggregateRepoDrift [B, A] r).behindCount.value) ∧
    (aggregateRepoDrift [A, B] r).dirtyCount =
      (aggregateRepoDrift [B, A] r).dirtyCount ∧
    (aggregateRepoDrift [A, B] r).repositoryCount =
      (aggregateRepoDrift [B, A] r).repositoryCount := by
  have key : ∀ X Y : RepoWorkspaceDrift, aggregateRepoDrift [X, Y] r =
      { aheadCount := aggregateCountMetric [X.aheadCount, Y.aheadCount]
          "ahead count unknown",
        behindCount := aggregateCountMetric [X.behindCount, Y.behindCount]
          "behind count unknown",
        clean := aggregateBooleanMetric [X.clean, Y.clean]
          "repo cleanliness unknown",
        dirtyCount :=
          if ([X, Y].all (fun w => w.clean.known)) then
            knownMetric (((List.filter
              (fun w => w.clean.value == some false) [X, Y]).length : Int))
          else
            unknownMetric "dirty count unavailable from one or more repositories",
        repositoryCount := knownMetric (((List.filter
          (fun w => w.repositoryRoot.known) [X, Y]).length : Int)),
        workspaces := [X, Y] } := fun X Y => rfl
  rw [key A B, key B A]
  refine ⟨aggregateBooleanMetric_pair_swap A.clean B.clean _,
    aggregateCountMetric_pair_swap A.aheadCount B.aheadCount _,
    aggregateCountMetric_pair_swap A.behindCount B.behindCount _, ?_, ?_⟩
  · rw [show ([A, B].all (fun w => w.clean.known)) =
      ([B, A].all (fun w => w.clean.known)) from all_pair_swap _ A B]
    split
    · rw [filter_pair_length_swap]
    · rfl
  · rw [show (List.filter (fun w => w.repositoryRoot.known) [A, B]).length =
      (List.filter (fun w => w.repositoryRoot.known) [B, A]).length from
      filter_pair_length_swap _ A B]

/-- Claim C7: the JSON metric constructor returns a known metric with
the parsed value on an ok result with parse and schema success; an unknown
metric whose reason carries the failure cause when the result is not ok; an
unknown metric with reason label: empty output when the result is ok but
the trimmed stdout is empty; an unknown metric with reason
label: schema mismatch on schema-validation failure, distinguishable from
the parse-failure reason label: message whenever the parse message differs
from "schema mismatch". -/
theorem jsonMetricFromCommand_spec {J T : Type}
    (parseJson : String → Except String J) (safeParse : J → Option T)
    (result : CommandResult) (label : String) :
    (result.ok = false →
      jsonMetricFromCommand parseJson safeParse result label =
        unknownMetric (label ++ ": " ++ commandReason result) ∧
      (∀ r : String, result.reason = some r →
        jsonMetricFromCommand parseJson safeParse result label =
          unknownMetric (label ++ ": " ++ r))) ∧
    (result.ok = true → jsTrim result.stdout = "" →
      jsonMetricFromCommand parseJson safeParse result label =
        unknownMetric (label ++ ": empty output")) ∧
    (∀ (j : J) (v : T), result.ok = true → jsTrim result.stdout ≠ "" →
      parseJson (jsTrim result.stdout) = Except.ok j → safeParse j = some v →
      jsonMetricFromCommand parseJson safeParse result label = knownMetric v) ∧
    (∀ j : J, result.ok = true → jsTrim result.stdout ≠ "" →
      parseJson (jsTrim result.stdout) = Except.ok j → safeParse j = none →
      jsonMetricFromCommand parseJson safeParse result label =
        unknownMetric (label ++ ": schema mismatch")) ∧
    (∀ e : String, result.ok = true → jsTrim result.stdout ≠ "" →
      parseJson (jsTrim result.stdout) = Except.error e →
      jsonMetricFromCommand parseJson safeParse result label =
        unknownMetric (label ++ ": " ++ e) ∧
      (e ≠ "schema mismatch" →
        label ++ ": " ++ e ≠ label ++ ": schema mismatch")) := by
  refine ⟨?_, ?_, ?_, ?_, ?_⟩
  · intro hok
    constructor
    · simp [jsonMetricFromCommand, hok]
    · intro r hr
      simp [jsonMetricFromCommand, hok, commandReason, hr]
  · intro hok htrim
    simp [jsonMetricFromCommand, hok, htrim]
  · intro j v hok htrim hparse hsafe
    have hlen : (((jsTrim result.stdout).length == 0) = true) = False := by
      simp only [jsTrim_length_eq_zero_iff]
      exact eq_false htrim
    simp [jsonMetricFromCommand, hok, hlen, hparse, hsafe]
  · intro j hok htrim hparse hsafe
    have hlen : (((jsTrim result.stdout).length == 0) = true) = False := by
      simp only [jsTrim_length_eq_zero_iff]
      exact eq_false htrim
    simp [jsonMetricFromCommand, hok, hlen, hparse, hsafe]
  · intro e hok htrim hparse
    have hlen : (((jsTrim result.stdout).length == 0) = true) = False := by
      simp only [jsTrim_length_eq_zero_iff]
      exact eq_false htrim
    refine ⟨by simp [jsonMetricFromCommand, hok, hlen, hparse], ?_⟩
    intro hne hcontra
    have hsplit : label ++ ": schema mismatch" =
        (label ++ ": ") ++ "schema mismatch" := by
      rw [String.append_assoc]
      exact congrArg (fun t => label ++ t) (by decide)
    rw [hsplit] at hcontra
    exact hne (string_append_cancel_left (label ++ ": ") e "schema mismatch"
      hcontra)

/-- Witness for C7 over a concrete parser and schema, exercising all
five outcomes. -/
theorem jsonMetricFromCommand_spec_witness :
    jsonMetricFromCommand sampleJsonParse sampleSchema
      { args := ["status", "--json"], code := some 0, command := "openclaw",
        ok := true, reason := none, stderr := "", stdout := "7" } "status" =
      knownMetric 7 ∧
    jsonMetricFromCommand sampleJsonParse sampleSchema
      { args := ["status", "--json"], code := some 127, command := "openclaw",
        ok := false, reason := some "openclaw not found", stderr := "",
        stdout := "" } "status" =
      unknownMetric "status: openclaw not found" ∧
    jsonMetricFromCommand sampleJsonParse sampleSchema
      { args := ["status", "--json"], code := some 0, command := "openclaw",
        ok := true, reason := none, stderr := "", stdout := "  " } "status" =
      unknownMetric "status: empty output" ∧
    jsonMetricFromCommand sampleJsonParse sampleSchema
      { args := ["status", "--json"], code := some 0, command := "openclaw",
        ok := true, reason := none, stderr := "", stdout := "8" } "status" =
      unknownMetric "status: schema mismatch" ∧
    jsonMetricFromCommand sampleJsonParse sampleSchema
      { args := ["status", "--json"], code := some 0, command := "openclaw",
        ok := true, reason := none, stderr := "", stdout := "x" } "status" =
      unknownMetric "status: Unexpected token" ∧
    "status" ++ ": " ++ "Unexpected token" ≠ "status" ++ ": schema mismatch" := by
  refine ⟨?_, ?_, ?_, ?_, ?_, ?_⟩
  · exact (jsonMetricFromCommand_spec sampleJsonParse sampleSchema _
      "status").2.2.1 7 7 rfl (by decide) rfl rfl
  · exact (((jsonMetricFromCommand_spec sampleJsonParse sampleSchema _
      "status").1 rfl).2 "openclaw not found" rfl).trans (by decide)
  · exact (jsonMetricFromCommand_spec sampleJsonParse sampleSchema _
      "status").2.1 rfl (by decide)
  · exact (jsonMetricFromCommand_spec sampleJsonParse sampleSchema _
      "status").2.2.2.1 8 rfl (by decide) rfl rfl
  · exact (((jsonMetricFromCommand_spec sampleJsonParse sampleSchema
      { args := ["status", "--json"], code := some 0, command := "openclaw",
        ok := true, reason := none, stderr := "", stdout := "x" }
      "status").2.2.2.2 "Unexpected token" rfl (by decide) rfl).1).trans
      (by decide)
  · exact ((jsonMetricFromCommand_spec sampleJsonParse sampleSchema
      { args := ["status", "--json"], code := some 0, command := "openclaw",
        ok := true, reason := none, stderr := "", stdout := "x" }
      "status").2.2.2.2 "Unexpected token" rfl (by decide) rfl).2 (by decide)

/-- Counterexample for C8: two warnings differing only in context (none
versus empty string) collapse to one entry, so warnings differing only in
context do not always both remain. -/
theorem uniqueWarnings_pair_counterexample :
    (buildWarning "security" "security_summary_unknown" "audit failed"
        WarningSeverity.warn none).context ≠
      (buildWarning "security" "security_summary_unknown" "audit failed"
        WarningSeverity.warn (some "")).context ∧
    (buildWarning "security" "security_summary_unknown" "audit failed"
        WarningSeverity.warn none).source =
      (buildWarning "security" "security_summary_unknown" "audit failed"
        WarningSeverity.warn (some "")).source ∧
    (buildWarning "security" "security_summary_unknown" "audit failed"
        WarningSeverity.warn none).code =
      (buildWarning "security" "security_summary_unknown" "audit failed"
        WarningSeverity.warn (some "")).code ∧
    (buildWarning "security" "security_summary_unknown" "audit failed"
        WarningSeverity.warn none).reason =
      (buildWarning "security" "security_summary_unknown" "audit failed"
        WarningSeverity.warn (some "")).reason ∧
    uniqueWarnings
      [buildWarning "security" "security_summary_unknown" "audit failed"
        WarningSeverity.warn none,
       buildWarning "security" "security_summary_unknown" "audit failed"
        WarningSeverity.warn (some "")] =
      [buildWarning "security" "security_summary_unknown" "audit failed"
        WarningSeverity.warn none] := by
  refine ⟨by decide, rfl, rfl, rfl, ?_⟩
  decide

/-- Claim C8 (amended): two warnings collapse if and only if their
dedup keys (source, code, reason and context-defaulted-to-empty joined with
a pipe) are equal; warnings equal in source, code, reason and context
collapse, and warnings equal in source, code and reason whose
context-or-empty strings differ both remain. -/
theorem uniqueWarnings_pair_char (w1 w2 : BoardWarning) :
    (uniqueWarnings [w1, w2] =
      if warningKey w1 = warningKey w2 then [w1] else [w1, w2]) ∧
    (w1.source = w2.source → w1.code = w2.code → w1.reason = w2.reason →
      w1.context = w2.context → uniqueWarnings [w1, w2] = [w1]) ∧
    (w1.source = w2.source → w1.code = w2.code → w1.reason = w2.reason →
      w1.context.getD "" ≠ w2.context.getD "" →
      uniqueWarnings [w1, w2] = [w1, w2]) := by
  have hcompute : uniqueWarnings [w1, w2] =
      if warningKey w1 = warningKey w2 then [w1] else [w1, w2] := by
    by_cases hk : warningKey w1 = warningKey w2
    · simp [uniqueWarnings, hk]
    · simp [uniqueWarnings, hk]
  refine ⟨hcompute, ?_, ?_⟩
  · intro hs hc hr hctx
    rw [hcompute, if_pos]
    rw [warningKey_expand, warningKey_expand, hs, hc, hr, hctx]
  · intro hs hc hr hctx
    rw [hcompute, if_neg]
    intro hkey
    apply hctx
    rw [warningKey_expand, warningKey_expand, hs, hc, hr] at hkey
    have h1 := string_append_cancel_left
      (w2.source ++ "|" ++ w2.code ++ "|" ++ w2.reason ++ "|")
      (w1.context.getD "") (w2.context.getD "") (by
        rw [show ∀ x y z c : String,
          x ++ "|" ++ y ++ "|" ++ z ++ "|" ++ c =
            (x ++ "|" ++ y ++ "|" ++ z ++ "|") ++ c from
          fun x y z c => by simp [String.append_assoc]] at hkey
        exact hkey)
    exact h1

/-- Witness for C8 at warnings differing only in context strings. -/
theorem uniqueWarnings_pair_char_witness :
    uniqueWarnings
      [buildWarning "repoDrift" "git_command_failed" "git failed"
        WarningSeverity.warn (some "/repo/a"),
       buildWarning "repoDrift" "git_command_failed" "git failed"
        WarningSeverity.warn (some "/repo/b")] =
      [buildWarning "repoDrift" "git_command_failed" "git failed"
        WarningSeverity.warn (some "/repo/a"),
       buildWarning "repoDrift" "git_command_failed" "git failed"
        WarningSeverity.warn (some "/repo/b")] ∧
    uniqueWarnings
      [buildWarning "repoDrift" "git_command_failed" "git failed"
        WarningSeverity.warn (some "/repo/a"),
       buildWarning "repoDrift" "git_command_failed" "git failed"
        WarningSeverity.warn (some "/repo/a")] =
      [buildWarning "repoDrift" "git_command_failed" "git failed"
        WarningSeverity.warn (some "/repo/a")] :=
  ⟨(uniqueWarnings_pair_char _ _).2.2 rfl rfl rfl (by decide),
   (uniqueWarnings_pair_char _ _).2.1 rfl rfl rfl rfl⟩

/-- Claim C9: compareDotVersions satisfies the three concrete examples
of the spec, always returns -1, 0 or 1, is antisymmetric, treats a missing
trailing component as 0 (appending ".0" to either argument never changes
the result), and compares any string as equal to itself. -/
theorem compareDotVersions_spec :
    compareDotVersions "2026.2.9" "2026.2.12" = -1 ∧
    compareDotVersions "1.2.3" "1.2.3" = 0 ∧
    compareDotVersions "2.0.0" "1.9.9" = 1 ∧
    (∀ left right : String, compareDotVersions left right = -1 ∨
      compareDotVersions left right = 0 ∨ compareDotVersions left right = 1) ∧
    (∀ left right : String,
      compareDotVersions left right = -(compareDotVersions right left)) ∧
    (∀ left right : String,
      compareDotVersions (left ++ ".0") right = compareDotVersions left right ∧
      compareDotVersions left (right ++ ".0") = compareDotVersions left right) ∧
    (∀ v : String, compareDotVersions v v = 0) := by
  refine ⟨by decide, by decide, by decide, ?_, ?_, ?_, ?_⟩
  · intro left right
    exact compareParts_mem (toParts left) (toParts right)
  · intro left right
    exact compareParts_antisym (toParts left) (toParts right)
  · intro left right
    constructor
    · show compareParts (toParts (left ++ ".0")) (toParts right) = _
      rw [toParts_append_dot_zero, compareParts_append_zero_left]
      rfl
    · show compareParts (toParts left) (toParts (right ++ ".0")) = _
      rw [toParts_append_dot_zero]
      rw [compareParts_antisym (toParts left) (toParts right ++ [0]),
        compareParts_append_zero_left,
        ← compareParts_antisym (toParts left) (toParts right)]
      rfl
  · intro v
    exact compareParts_self (toParts v)

/-- Claim C10: when the primary audit metric is not known-with-value
and the status payload carries no embedded summary, the security card has
critical, warning and info all unknown with one shared reason obtained by
falling back through the audit failure reason then the status-source
failure reason, together with exactly one warn-severity warning carrying
that reason; when the status payload does embed a summary, the card is
built from it and one warn-severity warning cites the primary failure. -/
theorem collectSecurityCard_fallbacks (audit : Metric SecurityAuditPayload)
    (status : Metric StatusSource) :
    (¬(audit.known = true ∧ audit.value.isSome = true) →
      (((status.value.bind (fun s => s.securityAudit)).bind
          (fun a => a.summary)) = none →
        collectSecurityCard audit status =
          { card := unknownSecurityCard
              (audit.reason.getD (status.reason.getD
                "security summary unavailable")),
            warnings := [buildWarning "security" "security_summary_unknown"
              (audit.reason.getD (status.reason.getD
                "security summary unavailable"))
              WarningSeverity.warn none] } ∧
        (collectSecurityCard audit status).card.critical =
          unknownMetric (audit.reason.getD (status.reason.getD
            "security summary unavailable")) ∧
        (collectSecurityCard audit status).card.warning =
          unknownMetric (audit.reason.getD (status.reason.getD
            "security summary unavailable")) ∧
        (collectSecurityCard audit status).card.info =
          unknownMetric (audit.reason.getD (status.reason.getD
            "security summary unavailable"))) ∧
      (∀ summ : SecuritySummary,
        ((status.value.bind (fun s => s.securityAudit)).bind
          (fun a => a.summary)) = some summ →
        collectSecurityCard audit status =
          { card := securityFromSummary summ,
            warnings := [buildWarning "security"
              "security_audit_fallback_status"
              (audit.reason.getD "security audit command unavailable")
              WarningSeverity.warn none] })) ∧
    (∀ payload : SecurityAuditPayload, audit.known = true →
      audit.value = some payload →
      collectSecurityCard audit status =
        { card := securityFromSummary payload.summary, warnings := [] }) := by
  constructor
  · intro hnotok
    constructor
    · intro hnone
      cases hk : audit.known <;> rcases hv : audit.value with _ | payload
      · refine ⟨?_, ?_, ?_, ?_⟩ <;>
          simp [collectSecurityCard, hk, hv, hnone, unknownSecurityCard]
      · refine ⟨?_, ?_, ?_, ?_⟩ <;>
          simp [collectSecurityCard, hk, hv, hnone, unknownSecurityCard]
      · refine ⟨?_, ?_, ?_, ?_⟩ <;>
          simp [collectSecurityCard, hk, hv, hnone, unknownSecurityCard]
      · exact absurd ⟨hk, by rw [hv]; rfl⟩ hnotok
    · intro summ hsome
      cases hk : audit.known <;> rcases hv : audit.value with _ | payload
      · simp [collectSecurityCard, hk, hv, hsome]
      · simp [collectSecurityCard, hk, hv, hsome]
      · simp [collectSecurityCard, hk, hv, hsome]
      · exact absurd ⟨hk, by rw [hv]; rfl⟩ hnotok
  · intro payload hk hv
    simp [collectSecurityCard, hk, hv]

/-- Witness for C10 with both sources failed, and with the fallback
summary present. -/
theorem collectSecurityCard_fallbacks_witness :
    collectSecurityCard
      (unknownMetric "openclaw security audit --json: openclaw not found")
      (unknownMetric "openclaw status --json: openclaw not found") =
      { card := unknownSecurityCard
          "openclaw security audit --json: openclaw not found",
        warnings := [buildWarning "security" "security_summary_unknown"
          "openclaw security audit --json: openclaw not found"
          WarningSeverity.warn none] } ∧
    collectSecurityCard
      (unknownMetric "openclaw security audit --json: openclaw not found")
      (knownMetric sampleStatusWithAudit) =
      { card := securityFromSummary sampleSummary,
        warnings := [buildWarning "security" "security_audit_fallback_status"
          "openclaw security audit --json: openclaw not found"
          WarningSeverity.warn none] } := by
  constructor
  · exact (((collectSecurityCard_fallbacks
      (unknownMetric "openclaw security audit --json: openclaw not found")
      (unknownMetric "openclaw status --json: openclaw not found")).1
      (by decide)).1 rfl).1
  · exact ((collectSecurityCard_fallbacks
      (unknownMetric "openclaw security audit --json: openclaw not found")
      (knownMetric sampleStatusWithAudit)).1
      (by decide)).2 sampleSummary rfl

end Clawtop
